import Mathlib

/-!
Shallow embedding of the Healthcare-Query-System core
(`backend/nlp_processor.py` and `backend/fhir_simulator.py`).

Python strings are modelled as Lean `String`, lowered to `List Char` for the
character-level operations (`str.lower`, substring tests, regex scans) so that
everything reduces in the kernel.  The Python substring test
`needle in haystack` is infix containment on character lists; the regex
`\b\d{1,3}\b` yields the maximal word-character runs of the text that consist
of one to three digits; `re.search` of a word-boundary-delimited literal word
is a positional scan with boundary checks.  The process-wide random source is
modelled by explicit draw parameters: `random.randint(a, b)` becomes
`pyRandint a b r`, which is `none` exactly when `a > b` (Python raises
`ValueError` there), and `random.choice(l)` becomes `pyChoice l r`, `none`
exactly when `l` is empty (Python raises there too).
-/

namespace HQS

/-- Infix containment on character lists: does `needle` occur contiguously? -/
def listInfix (needle : List Char) : List Char → Bool
  | [] => needle.isEmpty
  | a :: rest => needle.isPrefixOf (a :: rest) || listInfix needle rest

/-- Python substring containment `needle in haystack`. -/
def pyContains (needle : String) (haystack : List Char) : Bool :=
  listInfix needle.toList haystack

/-- Python `str.lower()`, on ASCII inputs. -/
def pyLower (s : String) : List Char :=
  s.toList.map Char.toLower

/-- Python regex word character (`\w`), restricted to ASCII inputs. -/
def isWordChar (c : Char) : Bool :=
  c.isAlphanum || c == '_'

/-- Maximal runs of word characters of a character list, in order.
`acc` holds the (reversed) run currently being read. -/
def wordRunsAux (acc : List Char) : List Char → List (List Char)
  | [] => if acc.isEmpty then [] else [acc.reverse]
  | c :: rest =>
    if isWordChar c then wordRunsAux (c :: acc) rest
    else if acc.isEmpty then wordRunsAux [] rest
    else acc.reverse :: wordRunsAux [] rest

/-- Maximal runs of word characters of a string. -/
def wordRuns (s : String) : List (List Char) :=
  wordRunsAux [] s.toList

/-- Value of a digit string, as computed by Python `int` on a decimal string. -/
def digitsToNat (run : List Char) : Nat :=
  run.foldl (fun a c => a * 10 + (c.toNat - 48)) 0

/-- `re.findall(r'\b\d{1,3}\b', text)` followed by `int(...)`: the maximal
word-character runs that are all digits and one to three characters long. -/
def findAgeNumbers (text : String) : List Nat :=
  (wordRuns text).filterMap fun run =>
    if run.all (fun c => c.isDigit) && decide (1 ≤ run.length) && decide (run.length ≤ 3) then
      some (digitsToNat run)
    else
      none

/-- Word-boundary test for the character left resp. right of a match site:
the string edge or a non-word character. -/
def boundaryOk : Option Char → Bool
  | none => true
  | some c => !(isWordChar c)

/-- Does the literal word `w` match at the front of `t`, with a word boundary
on both sides (`prev` is the character just before this position)? -/
def matchesWordAt (w : List Char) (prev : Option Char) (t : List Char) : Bool :=
  w.isPrefixOf t && boundaryOk prev && boundaryOk ((t.drop w.length).head?)

/-- Scan of `re.search` for the pattern `\b w \b`: try every position. -/
def searchFrom (w : List Char) : Option Char → List Char → Bool
  | prev, [] => matchesWordAt w prev []
  | prev, c :: rest => matchesWordAt w prev (c :: rest) || searchFrom w (some c) rest

/-- `re.search(r"\b<w>\b", text)` as a Bool, for a literal word `w`. -/
def reSearchWord (w : String) (text : List Char) : Bool :=
  searchFrom w.toList none text

/-! ### NLPProcessor vocabularies (`nlp_processor.py`, `__init__`) -/

/-- Medical condition surface-form variants, in declaration order. -/
def conditionVariants : List (String × List String) :=
  [ ("diabetes", ["diabetes", "diabetic", "dm", "type 1", "type 2"]),
    ("hypertension", ["hypertension", "high blood pressure", "hbp", "hypertensive"]),
    ("asthma", ["asthma", "asthmatic", "respiratory"]),
    ("heart disease", ["heart disease", "cardiac", "coronary", "heart condition", "cardiovascular"]),
    ("cancer", ["cancer", "oncology", "tumor", "malignant", "carcinoma"]),
    ("copd", ["copd", "chronic obstructive", "emphysema"]),
    ("stroke", ["stroke", "cerebrovascular", "cva"]) ]

/-- Female gender patterns (each is searched as `\b<word>\b`), first category. -/
def femalePatterns : List String := ["female", "women", "woman", "feminine"]

/-- Male gender patterns, second category. -/
def malePatterns : List String := ["male", "men", "man", "masculine"]

/-- An extracted age filter: the Python dict with optional keys
`min_age` / `max_age`; both `none` models the empty dict. -/
structure AgeFilter where
  min_age : Option Nat
  max_age : Option Nat
deriving DecidableEq

/-- The keyword test of the first branch of `extract_age_filter`. -/
def overKeyword (tl : List Char) : Bool :=
  pyContains "over" tl || pyContains "above" tl ||
    pyContains "older than" tl

/-- The keyword test of the second branch of `extract_age_filter`. -/
def underKeyword (tl : List Char) : Bool :=
  pyContains "under" tl || pyContains "below" tl ||
    pyContains "younger than" tl

/-- `NLPProcessor.extract_age_filter` (nlp_processor.py lines 37-55): scan for
1-3 digit numbers, then dispatch on `"over"`-type, `"under"`-type, and
`"between"` keywords, in that order of `if`/`elif` checks (the `"between"`
branch also requires at least two numbers). -/
def extract_age_filter (text : String) : AgeFilter :=
  let tl := pyLower text
  let age_numbers := findAgeNumbers text
  if overKeyword tl then
    match age_numbers with
    | [] => ⟨none, none⟩
    | n :: _ => ⟨some n, none⟩
  else if underKeyword tl then
    match age_numbers with
    | [] => ⟨none, none⟩
    | n :: _ => ⟨none, some n⟩
  else if pyContains "between" tl then
    match age_numbers with
    | n0 :: n1 :: _ => ⟨some n0, some n1⟩
    | _ => ⟨none, none⟩
  else
    ⟨none, none⟩

/-- Does any female pattern match the (lowered) text? -/
def femaleMatch (tl : List Char) : Bool :=
  femalePatterns.any (fun p => reSearchWord p tl)

/-- Does any male pattern match the (lowered) text? -/
def maleMatch (tl : List Char) : Bool :=
  malePatterns.any (fun p => reSearchWord p tl)

/-- `NLPProcessor.extract_gender` (nlp_processor.py lines 57-68): female
word-boundary patterns are tested before male ones; the first category with
any matching pattern wins; otherwise `None`. -/
def extract_gender (text : String) : Option String :=
  let tl := pyLower text
  if femaleMatch tl then some "female"
  else if maleMatch tl then some "male"
  else none

/-- `NLPProcessor.extract_conditions` (nlp_processor.py lines 70-79): a
condition key is included when any of its variants is a substring of the
lowercased text; keys appear in vocabulary declaration order. -/
def extract_conditions (text : String) : List String :=
  let tl := pyLower text
  conditionVariants.filterMap fun kv =>
    if kv.2.any (fun pat => pyContains pat tl) then some kv.1 else none

/-- The structured parameters extracted by `process_query`: `conditions`,
`age_filter`, `gender`, `limit` (the constant `query_type` tag and the
explanation string are not modelled, no claim mentions them). -/
structure FilterSpec where
  conditions : List String
  age_filter : AgeFilter
  gender : Option String
  limit : Nat
deriving DecidableEq

/-- Parameter part of `NLPProcessor.process_query` (nlp_processor.py lines
81-109): conditions, age filter and gender extracted from the text, fixed
result limit 10. -/
def process_query (query_text : String) : FilterSpec :=
  { conditions := extract_conditions query_text,
    age_filter := extract_age_filter query_text,
    gender := extract_gender query_text,
    limit := 10 }

/-! ### FHIRSimulator (`fhir_simulator.py`) -/

/-- `random.randint(lo, hi)` with explicit draw `r`: some value in `[lo, hi]`
when the interval is nonempty, `none` when `lo > hi` (Python raises
`ValueError: empty range` there). -/
def pyRandint (lo hi r : Nat) : Option Nat :=
  if lo ≤ hi then some (lo + r % (hi - lo + 1)) else none

/-- `random.choice(l)` with explicit draw `r`: `none` exactly on the empty
list (Python raises `IndexError` there). -/
def pyChoice {α : Type} (l : List α) (r : Nat) : Option α :=
  l[r % l.length]?

/-- `random.sample(l, k)` with explicit draw `r`: `k` elements of `l`
(modelled as a rotation followed by a prefix; the claims never inspect the
sampled distribution, only that elements come from `l`). -/
def pySample {α : Type} (l : List α) (k r : Nat) : List α :=
  (l.rotate (r % (l.length + 1))).take k

/-- First-name vocabulary, keyed by gender (`self.first_names`); lookup of
any other key models the Python `KeyError` by the empty list (so the
subsequent `random.choice` fails). -/
def first_names (gender : String) : List String :=
  if gender == "male" then
    ["James", "Robert", "John", "Michael", "David", "William", "Richard", "Joseph",
     "Thomas", "Christopher"]
  else if gender == "female" then
    ["Mary", "Patricia", "Jennifer", "Linda", "Elizabeth", "Barbara", "Susan",
     "Jessica", "Sarah", "Karen"]
  else []

/-- Surname vocabulary (`self.last_names`). -/
def last_names : List String :=
  ["Smith", "Johnson", "Williams", "Brown", "Jones", "Garcia", "Miller", "Davis",
   "Rodriguez", "Martinez", "Hernandez", "Lopez", "Gonzalez", "Wilson", "Anderson",
   "Thomas", "Taylor", "Moore", "Jackson", "Martin"]

/-- A coding triple: coding-system URI, code, display text. -/
structure Coding where
  system : String
  code : String
  display : String
deriving DecidableEq

/-- The condition catalog `self.condition_codes`, in declaration order. -/
def condition_codes : List (String × Coding) :=
  [ ("diabetes",
     ⟨"http://hl7.org/fhir/sid/icd-10-cm", "E11.9",
      "Type 2 diabetes mellitus without complications"⟩),
    ("hypertension",
     ⟨"http://hl7.org/fhir/sid/icd-10-cm", "I10", "Essential hypertension"⟩),
    ("asthma",
     ⟨"http://hl7.org/fhir/sid/icd-10-cm", "J45.9", "Asthma, unspecified"⟩),
    ("heart disease",
     ⟨"http://hl7.org/fhir/sid/icd-10-cm", "I25.9",
      "Chronic ischemic heart disease, unspecified"⟩),
    ("cancer",
     ⟨"http://hl7.org/fhir/sid/icd-10-cm", "C80.1",
      "Malignant neoplasm, unspecified"⟩) ]

/-- Catalog lookup `condition_name in self.condition_codes` /
`self.condition_codes[condition_name]`. -/
def lookupConditionCode (condition_name : String) : Option Coding :=
  (condition_codes.find? (fun kv => kv.1 == condition_name)).map Prod.snd

/-- The fixed fallback coding used for an unrecognized condition key. -/
def fallbackCoding : Coding :=
  ⟨"http://hl7.org/fhir/sid/icd-10-cm", "R06.9",
   "Unspecified abnormalities of breathing"⟩

/-- The street addresses of `self.addresses` (the other address fields travel
with the street and are not inspected by any claim). -/
def addresses : List String :=
  ["123 Main St", "456 Oak Ave", "789 Pine Rd", "321 Elm St", "654 Maple Dr"]

/-- A synthesized Patient resource.  `id` stands for the fresh
`patient-<8 hex>` identifier; `age` is the `_computed.age` field; `conditions`
the `_computed.conditions` list of condition keys. -/
structure Patient where
  id : String
  gender : String
  age : Nat
  first_name : String
  last_name : String
  address : String
  email : String
  conditions : List String
deriving DecidableEq

/-- The random draws consumed by one `generate_patient` call, in order. -/
structure PatientDraws where
  gender_r : Nat
  age_r : Nat
  first_r : Nat
  last_r : Nat
  addr_r : Nat
deriving DecidableEq

/-- Gender resolution of `generate_patient` (lines 65-67): `if not gender:`
draw from `["male", "female"]` (Python treats `None` and `""` as falsy). -/
def resolve_gender (gender0 : Option String) (r : Nat) : Option String :=
  match gender0 with
  | none => pyChoice ["male", "female"] r
  | some g => if g == "" then pyChoice ["male", "female"] r else pure g

/-- Age resolution of `generate_patient` (lines 69-75): with a truthy (i.e.
nonempty) `age_range` dict, `randint(min_age or 18, max_age or 85)`, else
`randint(18, 85)`. -/
def resolve_age (age_range : AgeFilter) (r : Nat) : Option Nat :=
  if age_range.min_age.isSome || age_range.max_age.isSome then
    pyRandint (age_range.min_age.getD 18) (age_range.max_age.getD 85) r
  else
    pyRandint 18 85 r

/-- `FHIRSimulator.generate_patient` (fhir_simulator.py lines 62-145).
`none` models an exception: `random.randint` on an empty age interval, or the
`self.first_names[gender]` lookup on a gender outside the vocabulary.
The birth date (`now - age*365.25 days`), timestamps, phone number and the
FHIR envelope fields are constants or direct functions of the drawn values
and are not modelled. -/
def generate_patient (gender0 : Option String) (age_range : AgeFilter)
    (conditions : List String) (d : PatientDraws) (pid : String) : Option Patient := do
  let gender ← resolve_gender gender0 d.gender_r
  let age ← resolve_age age_range d.age_r
  let first ← pyChoice (first_names gender) d.first_r
  let last ← pyChoice last_names d.last_r
  let addr ← pyChoice addresses d.addr_r
  pure { id := pid, gender := gender, age := age, first_name := first,
         last_name := last, address := addr,
         email := (⟨pyLower first⟩ : String) ++ "." ++ (⟨pyLower last⟩ : String) ++ "@email.com",
         conditions := conditions }

/-- A synthesized Condition resource.  `onset_days_ago` is the random offset
of `onsetDateTime` before now, in days. -/
structure Condition where
  id : String
  coding : Coding
  text : String
  subject_reference : String
  subject_display : String
  onset_days_ago : Nat
deriving DecidableEq

/-- `FHIRSimulator.generate_condition` (fhir_simulator.py lines 147-217):
unknown keys fall back to the fixed `R06.9` coding; the onset offset is
`random.randint(30, 1825)`, whose bounds are constants with `30 ≤ 1825`, so it
is written directly as `30 + onset_r % 1796`.  `hex` stands for the fresh
`uuid4` hex prefix of the condition id. -/
def generate_condition (patient_id condition_name : String) (hex : String)
    (onset_r : Nat) : Condition :=
  let condition_code := match lookupConditionCode condition_name with
    | none => fallbackCoding
    | some c => c
  { id := "condition-" ++ hex,
    coding := condition_code,
    text := condition_code.display,
    subject_reference := "Patient/" ++ patient_id,
    subject_display := "Patient " ++ patient_id,
    onset_days_ago := 30 + onset_r % 1796 }

/-- `FHIRSimulator.filter_patients` (fhir_simulator.py lines 219-240): narrow
by gender if set, then by each configured age bound, then by "any requested
condition present"; each step is a pure list filter. -/
def filter_patients (patients : List Patient) (params : FilterSpec) : List Patient :=
  let f1 := match params.gender with
    | some g => if g == "" then patients else patients.filter (fun p => p.gender == g)
    | none => patients
  let f2 := match params.age_filter.min_age with
    | some m => f1.filter (fun p => decide (m ≤ p.age))
    | none => f1
  let f3 := match params.age_filter.max_age with
    | some m => f2.filter (fun p => decide (p.age ≤ m))
    | none => f2
  if params.conditions.isEmpty then f3
  else f3.filter (fun p => params.conditions.any (fun c => p.conditions.contains c))

/-- The random draws consumed by the per-patient condition-assignment policy
in `generate_response`: the two `random.random()` threshold comparisons (as
their boolean outcomes), the `random.random() < 0.4` comparison of the
no-requested-conditions branch, and the `choice`/`sample` draws. -/
structure CondDraws where
  lt30 : Bool
  lt10 : Bool
  lt40 : Bool
  pick_r : Nat
  sample_r : Nat
deriving DecidableEq

/-- All condition keys, `list(self.condition_codes.keys())`. -/
def allConditionKeys : List String :=
  condition_codes.map Prod.fst

/-- The condition-assignment policy of `generate_response` (fhir_simulator.py
lines 253-265): with requested conditions, 30% one requested condition, else
10% a sample of up to two; with none requested, 40% one condition from the
whole catalog. -/
def assign_conditions (requested : List String) (d : CondDraws) : List String :=
  if requested.isEmpty then
    if d.lt40 then (pyChoice allConditionKeys d.pick_r).toList else []
  else
    if d.lt30 then (pyChoice requested d.pick_r).toList
    else if d.lt10 then pySample requested (min 2 requested.length) d.sample_r
    else []

/-- The pool-generation loop of `generate_response` (fhir_simulator.py lines
245-272): `n` patients, the `i`-th built from draws `pd i`, `cd i` and fresh
id `pids i`; `none` as soon as one `generate_patient` call fails. -/
def generate_pool (params : FilterSpec) (pd : Nat → PatientDraws)
    (cd : Nat → CondDraws) (pids : Nat → String) : Nat → Option (List Patient)
  | 0 => some []
  | k + 1 => do
    let pool ← generate_pool params pd cd pids k
    let p ← generate_patient params.gender params.age_filter
      (assign_conditions params.conditions (cd k)) (pd k) (pids k)
    pure (pool ++ [p])

/-- One entry of a result bundle. -/
inductive Resource where
  | patient (p : Patient)
  | condition (c : Condition)
deriving DecidableEq

/-- A bundle entry: lookup URL, wrapped resource, search mode tag. -/
structure Entry where
  fullUrl : String
  resource : Resource
  mode : String
deriving DecidableEq

/-- The result bundle: id, declared total, ordered entries. -/
structure Bundle where
  id : String
  total : Nat
  entry : List Entry
deriving DecidableEq

/-- The condition-synthesis loop of `generate_response` (fhir_simulator.py
lines 281-286): one condition record per (matching patient, condition key)
pair, in nested-loop order; the `k`-th record uses fresh hex `uuids k` and
onset draw `rands k`. -/
def bundle_condition_records (matching : List Patient) (uuids : Nat → String)
    (rands : Nat → Nat) : List Condition :=
  ((matching.flatMap (fun p => p.conditions.map (fun cn => (p.id, cn)))).enum).map
    fun ic => generate_condition ic.2.1 ic.2.2 (uuids ic.1) (rands ic.1)

/-- The deterministic tail of `generate_response` (fhir_simulator.py lines
274-316), given the generated pool: filter, truncate to the limit, synthesize
conditions for the retained patients, and assemble the bundle (patient entries
tagged `match` first, condition entries tagged `include` after; `total` is the
number of retained patients). -/
def assemble_bundle (pool : List Patient) (params : FilterSpec)
    (uuids : Nat → String) (rands : Nat → Nat) (bid : String) : Bundle :=
  let matching := filter_patients pool params
  let matching := matching.take params.limit
  let all_conditions := bundle_condition_records matching uuids rands
  { id := "bundle-" ++ bid,
    total := matching.length,
    entry :=
      matching.map (fun p =>
        { fullUrl := "http://example.org/fhir/Patient/" ++ p.id,
          resource := Resource.patient p, mode := "match" })
      ++ all_conditions.map (fun c =>
        { fullUrl := "http://example.org/fhir/Condition/" ++ c.id,
          resource := Resource.condition c, mode := "include" }) }

/-- `FHIRSimulator.generate_response` (fhir_simulator.py lines 242-316):
generate a pool of `n` patients (in Python `n = random.randint(20, 50)`), then
assemble the bundle; `none` models an exception escaping the call. -/
def generate_response (params : FilterSpec) (n : Nat) (pd : Nat → PatientDraws)
    (cd : Nat → CondDraws) (pids : Nat → String) (uuids : Nat → String)
    (rands : Nat → Nat) (bid : String) : Option Bundle :=
  (generate_pool params pd cd pids n).map fun pool =>
    assemble_bundle pool params uuids rands bid

/-- The Patient resource of one entry, if it wraps one (the
`resourceType == "Patient"` test of `get_summary_statistics`). -/
def entryPatient : Entry → Option Patient
  | ⟨_, Resource.patient p, _⟩ => some p
  | ⟨_, Resource.condition _, _⟩ => none

/-- The Condition resource of one entry, if it wraps one. -/
def entryCondition : Entry → Option Condition
  | ⟨_, Resource.patient _, _⟩ => none
  | ⟨_, Resource.condition c, _⟩ => some c

/-- The Patient resources of a bundle, in entry order. -/
def bundle_patients (b : Bundle) : List Patient :=
  b.entry.filterMap entryPatient

/-- The Condition resources of a bundle, in entry order. -/
def bundle_conditions (b : Bundle) : List Condition :=
  b.entry.filterMap entryCondition

/-- Summary statistics.  The float `average_age` is not modelled (no claim
mentions it); `condition_distribution` is modelled by its count function. -/
structure Stats where
  total_patients : Nat
  total_conditions : Nat
  age_18_30 : Nat
  age_31_50 : Nat
  age_51_70 : Nat
  age_71_plus : Nat
  gender_male : Nat
  gender_female : Nat
  condition_distribution : String → Nat

/-- `FHIRSimulator.get_summary_statistics` (fhir_simulator.py lines 318-354):
recomputed purely from the bundle's Patient and Condition entries. -/
def get_summary_statistics (b : Bundle) : Stats :=
  let patients := bundle_patients b
  let conditions := bundle_conditions b
  let ages := patients.map (fun p => p.age)
  { total_patients := patients.length,
    total_conditions := conditions.length,
    age_18_30 := (ages.filter (fun a => decide (18 ≤ a) && decide (a ≤ 30))).length,
    age_31_50 := (ages.filter (fun a => decide (31 ≤ a) && decide (a ≤ 50))).length,
    age_51_70 := (ages.filter (fun a => decide (51 ≤ a) && decide (a ≤ 70))).length,
    age_71_plus := (ages.filter (fun a => decide (70 < a))).length,
    gender_male := (patients.filter (fun p => p.gender == "male")).length,
    gender_female := (patients.filter (fun p => p.gender == "female")).length,
    condition_distribution := fun name =>
      (conditions.filter (fun c => c.text == name)).length }

/-! ### Shared lemmas -/

/-- The age dispatch as the claim words it: the `"between"`/`"from"`/
`"age range"` branch checked first (requiring two numbers), then `"over"`-type
keywords, then `"under"`-type keywords. -/
def claimed_age_dispatch (text : String) : AgeFilter :=
  let tl := pyLower text
  let age_numbers := findAgeNumbers text
  if (pyContains "between" tl || pyContains "from" tl ||
      pyContains "age range" tl) && decide (2 ≤ age_numbers.length) then
    match age_numbers with
    | n0 :: n1 :: _ => ⟨some n0, some n1⟩
    | _ => ⟨none, none⟩
  else if overKeyword tl then
    match age_numbers with
    | [] => ⟨none, none⟩
    | n :: _ => ⟨some n, none⟩
  else if underKeyword tl then
    match age_numbers with
    | [] => ⟨none, none⟩
    | n :: _ => ⟨none, some n⟩
  else
    ⟨none, none⟩

/-- A bundle holding exactly one patient aged 5, for the claim-C10 witness. -/
def youngBundle : Bundle :=
  ⟨"b0", 1, [⟨"u0", Resource.patient
    ⟨"py", "male", 5, "James", "Smith", "123 Main St", "e", []⟩, "match"⟩]⟩


/-- The conjunction of the four filter predicates of `filter_patients`,
associated the way repeated `List.filter_filter` composes them. -/
def matchesSpec (params : FilterSpec) : Patient → Bool := fun p =>
  (params.conditions.isEmpty || params.conditions.any (fun c => p.conditions.contains c)) &&
    ((match params.age_filter.max_age with
      | some m => decide (p.age ≤ m)
      | none => true) &&
     ((match params.age_filter.min_age with
       | some m => decide (m ≤ p.age)
       | none => true) &&
      (match params.gender with
       | some g => (g == "") || p.gender == g
       | none => true)))

/-- Unfolding of `matchesSpec` at its function argument. -/
lemma matchesSpec_def (params : FilterSpec) :
    matchesSpec params = fun p =>
      (params.conditions.isEmpty ||
        params.conditions.any (fun c => p.conditions.contains c)) &&
        ((match params.age_filter.max_age with
          | some m => decide (p.age ≤ m)
          | none => true) &&
         ((match params.age_filter.min_age with
           | some m => decide (m ≤ p.age)
           | none => true) &&
          (match params.gender with
           | some g => (g == "") || p.gender == g
           | none => true))) := rfl

/-- `filter_patients` is a single filter by the conjunction of its
independent predicates. -/
lemma filter_patients_eq_filter (pool : List Patient) (params : FilterSpec) :
    filter_patients pool params = pool.filter (matchesSpec params) := by
  obtain ⟨conds, ⟨mn, mx⟩, g, lim⟩ := params
  simp only [filter_patients, matchesSpec_def]
  rcases g with _ | g
  · rcases mn with _ | mn <;> rcases mx with _ | mx <;> cases hc : conds.isEmpty <;>
      simp [hc, List.filter_filter]
  · cases hg : g == "" <;> rcases mn with _ | mn <;> rcases mx with _ | mx <;>
      cases hc : conds.isEmpty <;> simp [hg, hc, List.filter_filter]

/-- Claim C7: `filter_patients` is idempotent — filtering an already-filtered
result with the same `FilterSpec` yields the same list. -/
theorem filter_patients_idempotent (pool : List Patient) (params : FilterSpec) :
    filter_patients (filter_patients pool params) params = filter_patients pool params := by
  rw [filter_patients_eq_filter, filter_patients_eq_filter, List.filter_filter]
  simp only [Bool.and_self]

/-- Claim C8: if the text contains `"over"` and at least one extracted
number, and contains neither `"between"` nor `"from"`, the extracted filter
sets exactly the lower bound, to the first number found. -/
theorem over_sets_min_age (text : String) (n : Nat) (ns : List Nat)
    (hover : pyContains "over" (pyLower text) = true)
    (hnums : findAgeNumbers text = n :: ns)
    (_hbetween : pyContains "between" (pyLower text) = false)
    (_hfrom : pyContains "from" (pyLower text) = false) :
    extract_age_filter text = ⟨some n, none⟩ := by
  have hk : overKeyword (pyLower text) = true := by
    simp [overKeyword, hover]
  simp only [extract_age_filter, hk, if_true, hnums]

/-- Witness for claim C8 at the text `"patients over 50"`. -/
theorem over_sets_min_age_witness :
    extract_age_filter "patients over 50" = ⟨some 50, none⟩ :=
  over_sets_min_age "patients over 50" 50 [] (by decide) (by decide) (by decide) (by decide)

/-- Counterexample to claim C2: on `"between 20 and 30 or over"` the claimed
between-first precedence yields both bounds, but the code checks the
`"over"` keywords first and sets only the lower bound. -/
theorem age_dispatch_between_first_cex :
    claimed_age_dispatch "between 20 and 30 or over" = ⟨some 20, some 30⟩ ∧
    extract_age_filter "between 20 and 30 or over" = ⟨some 20, none⟩ ∧
    claimed_age_dispatch "between 20 and 30 or over" ≠
      extract_age_filter "between 20 and 30 or over" := by
  refine ⟨by decide, by decide, by decide⟩

/-- Claim C2 (amended): the age extraction dispatches on keyword presence in
the order `"over"`/`"above"`/`"older than"` first (setting only the lower
bound from the first number found, if any), else `"under"`/`"below"`/
`"younger than"` (setting only the upper bound from the first number found,
if any), else `"between"` together with at least two numbers (setting both
bounds from the first two numbers); in every remaining case no bound is set,
and exactly one branch is evaluated per query.  (`"from"` and `"age range"`
are never consulted.) -/
theorem age_dispatch_order (text : String) :
    (overKeyword (pyLower text) = true →
      extract_age_filter text = ⟨(findAgeNumbers text).head?, none⟩) ∧
    (overKeyword (pyLower text) = false → underKeyword (pyLower text) = true →
      extract_age_filter text = ⟨none, (findAgeNumbers text).head?⟩) ∧
    (overKeyword (pyLower text) = false → underKeyword (pyLower text) = false →
      pyContains "between" (pyLower text) = true →
      2 ≤ (findAgeNumbers text).length →
      extract_age_filter text =
        ⟨(findAgeNumbers text).head?, ((findAgeNumbers text).drop 1).head?⟩) ∧
    (overKeyword (pyLower text) = false → underKeyword (pyLower text) = false →
      (pyContains "between" (pyLower text) = false ∨
        (findAgeNumbers text).length < 2) →
      extract_age_filter text = ⟨none, none⟩) := by
  refine ⟨?_, ?_, ?_, ?_⟩
  · intro hov
    cases hnum : findAgeNumbers text <;>
      simp [extract_age_filter, hov, hnum]
  · intro hov hun
    cases hnum : findAgeNumbers text <;>
      simp [extract_age_filter, hov, hun, hnum]
  · intro hov hun hbet hlen
    match hnum : findAgeNumbers text with
    | [] => rw [hnum] at hlen; simp at hlen
    | [n] => rw [hnum] at hlen; simp at hlen
    | n0 :: n1 :: rest => simp [extract_age_filter, hov, hun, hbet, hnum]
  · intro hov hun hrest
    rcases hrest with hbet | hlen
    · simp [extract_age_filter, hov, hun, hbet]
    · match hnum : findAgeNumbers text with
      | [] => simp [extract_age_filter, hov, hun, hnum]
      | [n] => simp [extract_age_filter, hov, hun, hnum]
      | n0 :: n1 :: rest => rw [hnum] at hlen; simp at hlen; omega

/-- Witness for claim C2 (amended): the `"over"` branch at
`"between 20 and 30 or over"` and the `"between"` branch at
`"between 20 and 30"`. -/
theorem age_dispatch_order_witness :
    extract_age_filter "between 20 and 30 or over" = ⟨some 20, none⟩ ∧
    extract_age_filter "between 20 and 30" = ⟨some 20, some 30⟩ :=
  ⟨by rw [(age_dispatch_order "between 20 and 30 or over").1 (by decide)]; decide,
   by rw [(age_dispatch_order "between 20 and 30").2.2.1 (by decide) (by decide)
          (by decide) (by decide)]; decide⟩

/-- Claim C9: `generate_condition` always returns a well-formed record; the
coding falls back to the fixed `R06.9` triple exactly when the key is not in
the catalog and is copied from the catalog entry otherwise. -/
theorem generate_condition_wellformed (patient_id condition_name hex : String)
    (onset_r : Nat) :
    (generate_condition patient_id condition_name hex onset_r).subject_reference =
      "Patient/" ++ patient_id ∧
    (generate_condition patient_id condition_name hex onset_r).id = "condition-" ++ hex ∧
    (generate_condition patient_id condition_name hex onset_r).text =
      (generate_condition patient_id condition_name hex onset_r).coding.display ∧
    30 ≤ (generate_condition patient_id condition_name hex onset_r).onset_days_ago ∧
    (generate_condition patient_id condition_name hex onset_r).onset_days_ago ≤ 1825 ∧
    (lookupConditionCode condition_name = none →
      (generate_condition patient_id condition_name hex onset_r).coding = fallbackCoding) ∧
    (∀ tr : Coding, lookupConditionCode condition_name = some tr →
      (generate_condition patient_id condition_name hex onset_r).coding = tr) := by
  refine ⟨?_, ?_, ?_, ?_, ?_, ?_, ?_⟩
  · simp [generate_condition]
  · simp [generate_condition]
  · cases h : lookupConditionCode condition_name <;> simp [generate_condition, h]
  · simp [generate_condition]
  · simp only [generate_condition]
    omega
  · intro h
    simp [generate_condition, h]
  · intro tr h
    simp [generate_condition, h]

/-- If some female pattern matches the lowered text, the extractor answers
female. -/
lemma extract_gender_female_of_match (text : String)
    (h : femaleMatch (pyLower text) = true) : extract_gender text = some "female" := by
  simp [extract_gender, h]

/-- Claim C5: female word-boundary patterns are tested before male ones and
the first category with a match wins; hence a text matching `\bwomen\b` is
never classified male, `"men's health"` classifies male, a text mentioning
both `"male"` and `"female"` resolves to female, and the extractor never
fails (its result is always `none`, female or male). -/
theorem gender_precedence :
    (∀ text : String, femaleMatch (pyLower text) = true →
      extract_gender text = some "female") ∧
    (∀ text : String, reSearchWord "women" (pyLower text) = true →
      extract_gender text ≠ some "male") ∧
    (∀ text : String, femaleMatch (pyLower text) = false →
      maleMatch (pyLower text) = true → extract_gender text = some "male") ∧
    (∀ text : String, extract_gender text = none ∨
      extract_gender text = some "female" ∨ extract_gender text = some "male") ∧
    extract_gender "men\x27s health" = some "male" ∧
    extract_gender "male and female patients" = some "female" := by
  refine ⟨fun t h => extract_gender_female_of_match t h, ?_, ?_, ?_, by decide, by decide⟩
  · intro t h hcon
    have hf : femaleMatch (pyLower t) = true := by
      simp only [femaleMatch, femalePatterns, List.any_cons, List.any_nil, h,
        Bool.true_or, Bool.or_true]
    rw [extract_gender_female_of_match t hf] at hcon
    simp at hcon
  · intro t hf hm
    simp [extract_gender, hf, hm]
  · intro t
    by_cases hf : femaleMatch (pyLower t) = true
    · exact Or.inr (Or.inl (extract_gender_female_of_match t hf))
    · by_cases hm : maleMatch (pyLower t) = true
      · refine Or.inr (Or.inr ?_)
        simp [extract_gender, hm, Bool.of_not_eq_true hf]
      · refine Or.inl ?_
        simp [extract_gender, Bool.of_not_eq_true hf, Bool.of_not_eq_true hm]

/-- Witness for claim C5 at concrete texts. -/
theorem gender_precedence_witness :
    extract_gender "female patients" = some "female" ∧
    extract_gender "women" ≠ some "male" ∧
    extract_gender "men over 40" = some "male" :=
  ⟨gender_precedence.1 "female patients" (by decide),
   gender_precedence.2.1 "women" (by decide),
   gender_precedence.2.2.1 "men over 40" (by decide) (by decide)⟩

/-- `filterMap` cancels a `map` whose image it fully accepts. -/
lemma filterMap_of_forall_some {α β : Type} (f : α → β) (g : β → Option α)
    (l : List α) (h : ∀ a, g (f a) = some a) : (l.map f).filterMap g = l := by
  induction l with
  | nil => rfl
  | cons a t ih => simp [h, ih]

/-- `filterMap` annihilates a `map` whose image it fully rejects. -/
lemma filterMap_of_forall_none {α β γ : Type} (f : α → β) (g : β → Option γ)
    (l : List α) (h : ∀ a, g (f a) = none) : (l.map f).filterMap g = [] := by
  induction l with
  | nil => rfl
  | cons a t ih => simp [h, ih]

/-- The Patient entries of an assembled bundle are exactly the truncated
filter result, in order. -/
lemma bundle_patients_assemble (pool : List Patient) (params : FilterSpec)
    (uuids : Nat → String) (rands : Nat → Nat) (bid : String) :
    bundle_patients (assemble_bundle pool params uuids rands bid) =
      (filter_patients pool params).take params.limit := by
  simp only [assemble_bundle, bundle_patients, List.filterMap_append]
  rw [filterMap_of_forall_some
      (fun p : Patient =>
        Entry.mk ("http://example.org/fhir/Patient/" ++ p.id) (Resource.patient p) "match")
      entryPatient _ (fun p => rfl),
    filterMap_of_forall_none
      (fun c : Condition =>
        Entry.mk ("http://example.org/fhir/Condition/" ++ c.id) (Resource.condition c) "include")
      entryPatient _ (fun c => rfl), List.append_nil]

/-- The Condition entries of an assembled bundle are exactly the synthesized
condition records of its retained patients. -/
lemma bundle_conditions_assemble (pool : List Patient) (params : FilterSpec)
    (uuids : Nat → String) (rands : Nat → Nat) (bid : String) :
    bundle_conditions (assemble_bundle pool params uuids rands bid) =
      bundle_condition_records ((filter_patients pool params).take params.limit)
        uuids rands := by
  simp only [assemble_bundle, bundle_conditions, List.filterMap_append]
  rw [filterMap_of_forall_none
      (fun p : Patient =>
        Entry.mk ("http://example.org/fhir/Patient/" ++ p.id) (Resource.patient p) "match")
      entryCondition _ (fun p => rfl),
    filterMap_of_forall_some
      (fun c : Condition =>
        Entry.mk ("http://example.org/fhir/Condition/" ++ c.id) (Resource.condition c) "include")
      entryCondition _ (fun c => rfl), List.nil_append]

/-- The declared total of an assembled bundle is the number of retained
patients. -/
lemma assemble_bundle_total (pool : List Patient) (params : FilterSpec)
    (uuids : Nat → String) (rands : Nat → Nat) (bid : String) :
    (assemble_bundle pool params uuids rands bid).total =
      ((filter_patients pool params).take params.limit).length := rfl

/-- Claim C4: the Patient entries of the assembled bundle are exactly the
first `min(limit, number of matches)` elements of the filter result in pool
order (truncation last, order preserved), and the declared total counts the
Patient entries only. -/
theorem bundle_patients_take_filter_total (pool : List Patient)
    (params : FilterSpec) (uuids : Nat → String) (rands : Nat → Nat)
    (bid : String) :
    bundle_patients (assemble_bundle pool params uuids rands bid) =
      (filter_patients pool params).take params.limit ∧
    (bundle_patients (assemble_bundle pool params uuids rands bid)).length =
      min params.limit (filter_patients pool params).length ∧
    (assemble_bundle pool params uuids rands bid).total =
      (bundle_patients (assemble_bundle pool params uuids rands bid)).length := by
  refine ⟨bundle_patients_assemble pool params uuids rands bid, ?_, ?_⟩
  · rw [bundle_patients_assemble]
    exact List.length_take params.limit (filter_patients pool params)
  · rw [bundle_patients_assemble, assemble_bundle_total]

/-- The second component of an `enumFrom` member is a member of the list. -/
lemma snd_mem_of_mem_enumFrom {α : Type} :
    ∀ (l : List α) (n : Nat) (ix : Nat × α), ix ∈ l.enumFrom n → ix.2 ∈ l := by
  intro l
  induction l with
  | nil =>
    intro n ix h
    simp [List.enumFrom] at h
  | cons a t ih =>
    intro n ix h
    rw [List.enumFrom] at h
    rcases List.mem_cons.mp h with h | h
    · rw [h]
      exact List.mem_cons_self a t
    · exact List.mem_cons_of_mem a (ih (n + 1) ix h)

/-- Claim C3: referential closure — every Condition entry of an assembled
bundle references the id of some Patient entry of the same bundle. -/
theorem bundle_referential_closure (pool : List Patient) (params : FilterSpec)
    (uuids : Nat → String) (rands : Nat → Nat) (bid : String) (c : Condition)
    (hc : c ∈ bundle_conditions (assemble_bundle pool params uuids rands bid)) :
    ∃ p ∈ bundle_patients (assemble_bundle pool params uuids rands bid),
      c.subject_reference = "Patient/" ++ p.id := by
  rw [bundle_conditions_assemble] at hc
  rw [bundle_patients_assemble]
  unfold bundle_condition_records at hc
  rcases List.mem_map.mp hc with ⟨ix, hix, hgen⟩
  have hpair : ix.2 ∈ ((filter_patients pool params).take params.limit).flatMap
      (fun p => p.conditions.map (fun cn => (p.id, cn))) :=
    snd_mem_of_mem_enumFrom _ 0 ix (by simpa [List.enum] using hix)
  rcases List.mem_flatMap.mp hpair with ⟨p, hp, hmem⟩
  rcases List.mem_map.mp hmem with ⟨cn, _, hpc⟩
  refine ⟨p, hp, ?_⟩
  have hfst : ix.2.1 = p.id := by
    rw [← hpc]
  rw [← hgen]
  simp [generate_condition, hfst]

/-- Witness for claim C3: a one-patient pool whose patient carries
`"diabetes"`, under the unconstrained `FilterSpec`. -/
theorem bundle_referential_closure_witness :
    ∃ p ∈ bundle_patients (assemble_bundle
      [⟨"pid0", "male", 40, "James", "Smith", "123 Main St", "james.smith@email.com",
        ["diabetes"]⟩]
      ⟨[], ⟨none, none⟩, none, 10⟩ (fun _ => "u0") (fun _ => 0) "b0"),
      (generate_condition "pid0" "diabetes" "u0" 0).subject_reference =
        "Patient/" ++ p.id :=
  bundle_referential_closure
    [⟨"pid0", "male", 40, "James", "Smith", "123 Main St", "james.smith@email.com",
      ["diabetes"]⟩]
    ⟨[], ⟨none, none⟩, none, 10⟩ (fun _ => "u0") (fun _ => 0) "b0"
    (generate_condition "pid0" "diabetes" "u0" 0) (by decide)

/-- Witness for claim C9: an unknown key gets the fallback coding, a known
key gets its catalog coding. -/
theorem generate_condition_wellformed_witness :
    (generate_condition "p1" "flu" "h1" 0).coding = fallbackCoding ∧
    (generate_condition "p1" "diabetes" "h1" 0).coding =
      ⟨"http://hl7.org/fhir/sid/icd-10-cm", "E11.9",
       "Type 2 diabetes mellitus without complications"⟩ :=
  ⟨(generate_condition_wellformed "p1" "flu" "h1" 0).2.2.2.2.2.1 (by decide),
   (generate_condition_wellformed "p1" "diabetes" "h1" 0).2.2.2.2.2.2 _ (by decide)⟩

/-- `pyChoice` only returns elements of its list. -/
lemma pyChoice_mem {α : Type} (l : List α) (r : Nat) (a : α)
    (h : pyChoice l r = some a) : a ∈ l :=
  List.getElem?_mem h

/-- `pyChoice` succeeds on a nonempty list. -/
lemma pyChoice_isSome {α : Type} (l : List α) (r : Nat) (h : 0 < l.length) :
    (pyChoice l r).isSome = true := by
  unfold pyChoice
  cases hx : l[r % l.length]? with
  | some a => rfl
  | none =>
    rw [List.getElem?_eq_none_iff] at hx
    have := Nat.mod_lt r h
    omega

/-- A resolved gender, when the requested one is unset, empty or a known
gender, is male or female. -/
lemma resolve_gender_mem (g0 : Option String) (r : Nat) (g : String)
    (h0 : g0 = none ∨ g0 = some "" ∨ g0 = some "male" ∨ g0 = some "female")
    (h : resolve_gender g0 r = some g) : g = "male" ∨ g = "female" := by
  rcases h0 with rfl | rfl | rfl | rfl
  · unfold resolve_gender at h
    simpa using pyChoice_mem _ _ _ h
  · unfold resolve_gender at h
    simp only [beq_self_eq_true, if_true] at h
    simpa using pyChoice_mem _ _ _ h
  · unfold resolve_gender at h
    simp at h
    exact Or.inl h.symm
  · unfold resolve_gender at h
    simp at h
    exact Or.inr h.symm

/-- A successful `generate_patient` call carries the resolved gender. -/
lemma generate_patient_gender (g0 : Option String) (ar : AgeFilter)
    (conds : List String) (d : PatientDraws) (pid : String) (p : Patient)
    (hp : generate_patient g0 ar conds d pid = some p) :
    ∃ g, resolve_gender g0 d.gender_r = some g ∧ p.gender = g := by
  unfold generate_patient at hp
  rcases Option.bind_eq_some.mp hp with ⟨g, hg, hp⟩
  rcases Option.bind_eq_some.mp hp with ⟨age, hage, hp⟩
  rcases Option.bind_eq_some.mp hp with ⟨first, hfirst, hp⟩
  rcases Option.bind_eq_some.mp hp with ⟨last, hlast, hp⟩
  rcases Option.bind_eq_some.mp hp with ⟨addr, haddr, hp⟩
  refine ⟨g, hg, ?_⟩
  injection hp with h
  rw [← h]

/-- Every Patient entry of an assembled bundle comes from the pool. -/
lemma mem_pool_of_mem_bundle_patients (pool : List Patient) (params : FilterSpec)
    (uuids : Nat → String) (rands : Nat → Nat) (bid : String) (p : Patient)
    (hp : p ∈ bundle_patients (assemble_bundle pool params uuids rands bid)) :
    p ∈ pool := by
  rw [bundle_patients_assemble] at hp
  have h1 : p ∈ filter_patients pool params :=
    (List.take_sublist params.limit (filter_patients pool params)).subset hp
  rw [filter_patients_eq_filter] at h1
  exact (List.filter_sublist pool).subset h1

/-- String literal disequalities used in gender counting. -/
lemma male_beq_female_eq_false : (("male" : String) == "female") = false := by decide

/-- String literal disequalities used in gender counting, other direction. -/
lemma female_beq_male_eq_false : (("female" : String) == "male") = false := by decide

/-- When every patient of a list is male or female, the male and female
filter counts sum to its length. -/
lemma count_male_add_female (l : List Patient)
    (h : ∀ p ∈ l, p.gender = "male" ∨ p.gender = "female") :
    (l.filter (fun p => p.gender == "male")).length +
      (l.filter (fun p => p.gender == "female")).length = l.length := by
  induction l with
  | nil => rfl
  | cons a t ih =>
    have ht : ∀ p ∈ t, p.gender = "male" ∨ p.gender = "female" :=
      fun p hp => h p (List.mem_cons_of_mem a hp)
    have hlen := ih ht
    rcases h a (List.mem_cons_self a t) with ha | ha
    · simp only [List.filter_cons, ha, beq_self_eq_true, male_beq_female_eq_false, if_true,
        Bool.false_eq_true, if_false, List.length_cons]
      omega
    · simp only [List.filter_cons, ha, beq_self_eq_true, female_beq_male_eq_false, if_true,
        Bool.false_eq_true, if_false, List.length_cons]
      omega

/-- Claim C6: each generated patient's gender is male or female (when the
requested gender is unset, empty, or a known gender), and in every assembled
bundle over such a pool the male and female counts of
`get_summary_statistics` sum to the bundle's declared total. -/
theorem gender_distribution_sums_to_total :
    (∀ (g0 : Option String) (ar : AgeFilter) (conds : List String)
        (d : PatientDraws) (pid : String) (p : Patient),
      (g0 = none ∨ g0 = some "" ∨ g0 = some "male" ∨ g0 = some "female") →
      generate_patient g0 ar conds d pid = some p →
      p.gender = "male" ∨ p.gender = "female") ∧
    (∀ (pool : List Patient) (params : FilterSpec) (uuids : Nat → String)
        (rands : Nat → Nat) (bid : String),
      (∀ p ∈ pool, p.gender = "male" ∨ p.gender = "female") →
      (get_summary_statistics
          (assemble_bundle pool params uuids rands bid)).gender_male +
        (get_summary_statistics
          (assemble_bundle pool params uuids rands bid)).gender_female =
        (assemble_bundle pool params uuids rands bid).total) := by
  constructor
  · intro g0 ar conds d pid p h0 hp
    rcases generate_patient_gender g0 ar conds d pid p hp with ⟨g, hg, hpg⟩
    rw [hpg]
    exact resolve_gender_mem g0 d.gender_r g h0 hg
  · intro pool params uuids rands bid hpool
    have hmem : ∀ p ∈ bundle_patients (assemble_bundle pool params uuids rands bid),
        p.gender = "male" ∨ p.gender = "female" :=
      fun p hp => hpool p (mem_pool_of_mem_bundle_patients pool params uuids rands bid p hp)
    have hcount := count_male_add_female _ hmem
    have htot : (assemble_bundle pool params uuids rands bid).total =
        (bundle_patients (assemble_bundle pool params uuids rands bid)).length := by
      rw [bundle_patients_assemble, assemble_bundle_total]
    rw [htot, ← hcount]
    rfl

/-- Witness for claim C6: a two-patient pool under the unconstrained spec. -/
theorem gender_distribution_sums_to_total_witness :
    (get_summary_statistics (assemble_bundle
        [⟨"pa", "male", 30, "James", "Smith", "123 Main St", "e", []⟩,
         ⟨"pb", "female", 60, "Mary", "Jones", "456 Oak Ave", "e", []⟩]
        ⟨[], ⟨none, none⟩, none, 10⟩ (fun _ => "u") (fun _ => 0) "b")).gender_male +
      (get_summary_statistics (assemble_bundle
        [⟨"pa", "male", 30, "James", "Smith", "123 Main St", "e", []⟩,
         ⟨"pb", "female", 60, "Mary", "Jones", "456 Oak Ave", "e", []⟩]
        ⟨[], ⟨none, none⟩, none, 10⟩ (fun _ => "u") (fun _ => 0) "b")).gender_female =
      (assemble_bundle
        [⟨"pa", "male", 30, "James", "Smith", "123 Main St", "e", []⟩,
         ⟨"pb", "female", 60, "Mary", "Jones", "456 Oak Ave", "e", []⟩]
        ⟨[], ⟨none, none⟩, none, 10⟩ (fun _ => "u") (fun _ => 0) "b").total :=
  gender_distribution_sums_to_total.2
    [⟨"pa", "male", 30, "James", "Smith", "123 Main St", "e", []⟩,
     ⟨"pb", "female", 60, "Mary", "Jones", "456 Oak Ave", "e", []⟩]
    ⟨[], ⟨none, none⟩, none, 10⟩ (fun _ => "u") (fun _ => 0) "b" (by decide)

/-- The four age-bucket filter counts over a list of ages sum to the number
of ages of at least 18. -/
lemma bucket_sum_eq_countP (ages : List Nat) :
    (ages.filter (fun a => decide (18 ≤ a) && decide (a ≤ 30))).length +
      (ages.filter (fun a => decide (31 ≤ a) && decide (a ≤ 50))).length +
      (ages.filter (fun a => decide (51 ≤ a) && decide (a ≤ 70))).length +
      (ages.filter (fun a => decide (70 < a))).length =
      ages.countP (fun a => decide (18 ≤ a)) := by
  simp only [← List.countP_eq_length_filter]
  induction ages with
  | nil => rfl
  | cons a t ih =>
    simp only [List.countP_cons, Bool.and_eq_true, decide_eq_true_eq]
    split_ifs <;> omega

/-- Claim C10: the age buckets of `get_summary_statistics` count exactly the
patients aged at least 18, so the bucket counts sum to strictly less than
`total_patients` whenever some patient is younger than 18 (and equal it
exactly when every patient is at least 18); such patients are reachable, e.g.
from the query `"between 5 and 15"`. -/
theorem age_buckets_cover_only_adults :
    (∀ b : Bundle,
      (get_summary_statistics b).age_18_30 + (get_summary_statistics b).age_31_50 +
          (get_summary_statistics b).age_51_70 + (get_summary_statistics b).age_71_plus =
        (bundle_patients b).countP (fun p => decide (18 ≤ p.age)) ∧
      ((∃ p ∈ bundle_patients b, p.age < 18) →
        (get_summary_statistics b).age_18_30 + (get_summary_statistics b).age_31_50 +
            (get_summary_statistics b).age_51_70 + (get_summary_statistics b).age_71_plus <
          (get_summary_statistics b).total_patients) ∧
      ((get_summary_statistics b).age_18_30 + (get_summary_statistics b).age_31_50 +
            (get_summary_statistics b).age_51_70 + (get_summary_statistics b).age_71_plus =
          (get_summary_statistics b).total_patients ↔
        ∀ p ∈ bundle_patients b, 18 ≤ p.age)) ∧
    extract_age_filter "between 5 and 15" = ⟨some 5, some 15⟩ ∧
    (∃ p : Patient,
      generate_patient none ⟨some 5, some 15⟩ [] ⟨0, 0, 0, 0, 0⟩ "p0" = some p ∧
      p.age < 18) := by
  refine ⟨?_, by decide, ?_⟩
  · intro b
    have hsum : (get_summary_statistics b).age_18_30 + (get_summary_statistics b).age_31_50 +
        (get_summary_statistics b).age_51_70 + (get_summary_statistics b).age_71_plus =
        (bundle_patients b).countP (fun p => decide (18 ≤ p.age)) := by
      have h := bucket_sum_eq_countP ((bundle_patients b).map (fun p => p.age))
      rw [List.countP_map] at h
      exact h
    have htot : (get_summary_statistics b).total_patients = (bundle_patients b).length := rfl
    refine ⟨hsum, ?_, ?_⟩
    · rintro ⟨p, hp, hage⟩
      rw [hsum, htot]
      have hle : (bundle_patients b).countP (fun q => decide (18 ≤ q.age)) ≤
          (bundle_patients b).length := List.countP_le_length _
      have hne : (bundle_patients b).countP (fun q => decide (18 ≤ q.age)) ≠
          (bundle_patients b).length := by
        intro heq
        have hall := List.countP_eq_length.mp heq p hp
        simp at hall
        omega
      omega
    · rw [hsum, htot]
      rw [List.countP_eq_length]
      constructor
      · intro h p hp
        simpa using h p hp
      · intro h p hp
        simpa using h p hp
  · exact ⟨⟨"p0", "male", 5, "James", "Smith", "123 Main St", "james.smith@email.com", []⟩,
      by decide, by decide⟩

/-- Witness for claim C10 at a concrete bundle with one patient aged 5. -/
theorem age_buckets_cover_only_adults_witness :
    (get_summary_statistics youngBundle).age_18_30 +
        (get_summary_statistics youngBundle).age_31_50 +
        (get_summary_statistics youngBundle).age_51_70 +
        (get_summary_statistics youngBundle).age_71_plus <
      (get_summary_statistics youngBundle).total_patients :=
  (age_buckets_cover_only_adults.1 youngBundle).2.1
    ⟨⟨"py", "male", 5, "James", "Smith", "123 Main St", "e", []⟩, by decide, by decide⟩

/-- `pyRandint` succeeds on a nonempty interval. -/
lemma pyRandint_isSome (lo hi r : Nat) (h : lo ≤ hi) :
    (pyRandint lo hi r).isSome = true := by
  simp [pyRandint, h]

/-- `resolve_age` succeeds when the resolved interval is nonempty. -/
lemma resolve_age_isSome (ar : AgeFilter) (r : Nat)
    (h : ar.min_age.getD 18 ≤ ar.max_age.getD 85) :
    (resolve_age ar r).isSome = true := by
  unfold resolve_age
  split_ifs
  · exact pyRandint_isSome _ _ r h
  · exact pyRandint_isSome _ _ r (by decide)

/-- A resolved age lies in the resolved interval
`[min_age or 18, max_age or 85]`. -/
lemma resolve_age_bounds (ar : AgeFilter) (r a : Nat)
    (ha : resolve_age ar r = some a) :
    ar.min_age.getD 18 ≤ a ∧ a ≤ ar.max_age.getD 85 := by
  unfold resolve_age at ha
  by_cases hb : (ar.min_age.isSome || ar.max_age.isSome) = true
  · rw [if_pos hb] at ha
    unfold pyRandint at ha
    by_cases hle : ar.min_age.getD 18 ≤ ar.max_age.getD 85
    · rw [if_pos hle] at ha
      injection ha with h'
      have hmod := Nat.mod_lt r
        (show 0 < ar.max_age.getD 85 - ar.min_age.getD 18 + 1 by omega)
      omega
    · rw [if_neg hle] at ha
      exact absurd ha (by simp)
  · rw [if_neg hb] at ha
    have hmn : ar.min_age = none := by
      rcases h : ar.min_age with _ | v
      · rfl
      · rw [h] at hb
        simp at hb
    have hmx : ar.max_age = none := by
      rcases h : ar.max_age with _ | v
      · rfl
      · rw [h] at hb
        simp at hb
    unfold pyRandint at ha
    rw [if_pos (by decide : (18 : Nat) ≤ 85)] at ha
    injection ha with h'
    have hmod := Nat.mod_lt r (show 0 < 85 - 18 + 1 by decide)
    rw [hmn, hmx]
    simp only [Option.getD_none]
    omega

/-- `resolve_gender` succeeds for an unset, empty, or known requested
gender. -/
lemma resolve_gender_isSome (g0 : Option String) (r : Nat)
    (h0 : g0 = none ∨ g0 = some "" ∨ g0 = some "male" ∨ g0 = some "female") :
    (resolve_gender g0 r).isSome = true := by
  rcases h0 with rfl | rfl | rfl | rfl
  · exact pyChoice_isSome _ r (by decide)
  · unfold resolve_gender
    simp only [beq_self_eq_true, if_true]
    exact pyChoice_isSome _ r (by decide)
  · rfl
  · rfl

/-- `generate_patient` succeeds whenever gender resolution and the age draw
succeed (the name, address and contact draws always do). -/
lemma generate_patient_isSome (g0 : Option String) (ar : AgeFilter)
    (conds : List String) (d : PatientDraws) (pid : String)
    (h0 : g0 = none ∨ g0 = some "" ∨ g0 = some "male" ∨ g0 = some "female")
    (ha : ar.min_age.getD 18 ≤ ar.max_age.getD 85) :
    (generate_patient g0 ar conds d pid).isSome = true := by
  rcases Option.isSome_iff_exists.mp (resolve_gender_isSome g0 d.gender_r h0) with ⟨g, hg⟩
  have hgmem := resolve_gender_mem g0 d.gender_r g h0 hg
  have hfn : 0 < (first_names g).length := by
    rcases hgmem with h | h <;> rw [h] <;> decide
  rcases Option.isSome_iff_exists.mp (resolve_age_isSome ar d.age_r ha) with ⟨age, hage⟩
  rcases Option.isSome_iff_exists.mp (pyChoice_isSome (first_names g) d.first_r hfn) with ⟨fn, hfne⟩
  rcases Option.isSome_iff_exists.mp (pyChoice_isSome last_names d.last_r (by decide)) with ⟨ln, hlne⟩
  rcases Option.isSome_iff_exists.mp (pyChoice_isSome addresses d.addr_r (by decide)) with ⟨ad, hade⟩
  simp [generate_patient, hg, hage, hfne, hlne, hade]

/-- The pool loop succeeds when every per-patient draw does. -/
lemma generate_pool_isSome (params : FilterSpec) (pd : Nat → PatientDraws)
    (cd : Nat → CondDraws) (pids : Nat → String) (n : Nat)
    (h0 : params.gender = none ∨ params.gender = some "" ∨
      params.gender = some "male" ∨ params.gender = some "female")
    (ha : params.age_filter.min_age.getD 18 ≤ params.age_filter.max_age.getD 85) :
    (generate_pool params pd cd pids n).isSome = true := by
  induction n with
  | zero => rfl
  | succ k ih =>
    rcases Option.isSome_iff_exists.mp ih with ⟨pool, hpool⟩
    rcases Option.isSome_iff_exists.mp
      (generate_patient_isSome params.gender params.age_filter
        (assign_conditions params.conditions (cd k)) (pd k) (pids k) h0 ha) with ⟨p, hp⟩
    simp only [generate_pool, hpool, hp, Option.some_bind]
    rfl

/-- Counterexample to claim C1: the text `"patients over 90"` is interpreted
into the filter `{min_age := 90}`; its resolved age interval
`[90, default ceiling 85]` is empty, so the per-person age draw
`randint(90, 85)` fails (Python raises `ValueError`) and `generate_response`
fails rather than returning a bundle. -/
theorem age_draw_empty_interval_cex :
    process_query "patients over 90" = ⟨[], ⟨some 90, none⟩, none, 10⟩ ∧
    generate_patient none ⟨some 90, none⟩ [] ⟨0, 0, 0, 0, 0⟩ "p0" = none ∧
    generate_response (process_query "patients over 90") 1 (fun _ => ⟨0, 0, 0, 0, 0⟩)
      (fun _ => ⟨false, false, false, 0, 0⟩) (fun _ => "p0") (fun _ => "u0")
      (fun _ => 0) "b0" = none := by
  refine ⟨by decide, by decide, by decide⟩

/-- Claim C1 (amended): `generate_response` completes and returns a bundle
for every `FilterSpec` whose gender is unset, empty or a known gender and
whose resolved age interval `[min_age or 18, max_age or 85]` is nonempty; and
every successfully generated patient's age lies in that resolved interval.
(For a spec with only a lower bound above 85 — e.g. interpreted from
`"patients over 90"` — the interval is empty and the generator fails instead
of returning a bundle.) -/
theorem generate_response_succeeds_of_nonempty_age_interval
    (params : FilterSpec) (n : Nat) (pd : Nat → PatientDraws) (cd : Nat → CondDraws)
    (pids uuids : Nat → String) (rands : Nat → Nat) (bid : String)
    (hg : params.gender = none ∨ params.gender = some "" ∨
      params.gender = some "male" ∨ params.gender = some "female")
    (ha : params.age_filter.min_age.getD 18 ≤ params.age_filter.max_age.getD 85) :
    (generate_response params n pd cd pids uuids rands bid).isSome = true ∧
    ∀ (g0 : Option String) (ar : AgeFilter) (conds : List String)
      (d : PatientDraws) (pid : String) (p : Patient),
      generate_patient g0 ar conds d pid = some p →
      ar.min_age.getD 18 ≤ p.age ∧ p.age ≤ ar.max_age.getD 85 := by
  constructor
  · unfold generate_response
    rcases Option.isSome_iff_exists.mp
      (generate_pool_isSome params pd cd pids n hg ha) with ⟨pool, hpool⟩
    simp [hpool]
  · intro g0 ar conds d pid p hp
    unfold generate_patient at hp
    rcases Option.bind_eq_some.mp hp with ⟨g, hgg, hp⟩
    rcases Option.bind_eq_some.mp hp with ⟨age, hage, hp⟩
    rcases Option.bind_eq_some.mp hp with ⟨fn, hfne, hp⟩
    rcases Option.bind_eq_some.mp hp with ⟨ln, hlne, hp⟩
    rcases Option.bind_eq_some.mp hp with ⟨ad, hade, hp⟩
    injection hp with h
    rw [← h]
    exact resolve_age_bounds ar d.age_r age hage

/-- Witness for claim C1 (amended): a female-only spec with lower age bound
30 and a pool of two patients. -/
theorem generate_response_succeeds_witness :
    (generate_response ⟨[], ⟨some 30, none⟩, some "female", 10⟩ 2
      (fun _ => ⟨0, 0, 0, 0, 0⟩) (fun _ => ⟨false, false, false, 0, 0⟩)
      (fun _ => "p0") (fun _ => "u0") (fun _ => 0) "b0").isSome = true :=
  (generate_response_succeeds_of_nonempty_age_interval
    ⟨[], ⟨some 30, none⟩, some "female", 10⟩ 2
    (fun _ => ⟨0, 0, 0, 0, 0⟩) (fun _ => ⟨false, false, false, 0, 0⟩)
    (fun _ => "p0") (fun _ => "u0") (fun _ => 0) "b0"
    (by decide) (by decide)).1

end HQS
